import Mathlib

/-!
Verification development for the SESACO compliance aggregation and report
rendering engine (src/streamlit_app.py).  The definitions below are a
shallow embedding of the aggregation endpoint `generar_reporte_empresa`,
the classifier and percentage formulas of `generate_pdf_report`, the logo
and chart handling of `generate_pdf_report`, and the spreadsheet export of
`reportes_page`.
-/

namespace Sesaco

/-! ## Answer literals (radio options of the verification form, line 1437,
and the submit default of line 1467). -/

def cumpleStr : String := "✅ Cumple"

def noCumpleStr : String := "❌ No cumple"

def noAplicaStr : String := "➖ No aplica"

def noSeleccionadoStr : String := "No seleccionado"

/-! ## Data model (`PreguntaVerificacion`, `FormularioVerificacion`,
lines 60-73).  Timestamps are modelled as natural numbers. -/

structure PreguntaVerificacion where
  id : Nat
  seccion : String
  categoria : String
  pregunta : String
  normativa : String
  respuesta : Option String
  observaciones : Option String
deriving DecidableEq, Repr

structure FormularioVerificacion where
  empresaRuc : String
  inspectorCedula : String
  fecha : Nat
  preguntas : List PreguntaVerificacion
deriving DecidableEq, Repr

/-- Per-section counters, one entry of `estadisticas["secciones"]`
(lines 254-268). -/
structure SeccionStats where
  total : Nat
  cumple : Nat
  noCumple : Nat
  noAplica : Nat
deriving DecidableEq, Repr

/-- The fresh dict `{"total": 0, "cumple": 0, "no_cumple": 0, "no_aplica": 0}`
inserted at line 255. -/
def SeccionStats.inicial : SeccionStats := ⟨0, 0, 0, 0⟩

/-- Lines 262-268: `total` is always incremented; then exactly one of
`cumple` / `no_cumple` / `no_aplica` is incremented by the if/elif/else on
`pregunta.respuesta`. -/
def bumpSeccion (s : SeccionStats) (resp : Option String) : SeccionStats :=
  let s1 : SeccionStats := { s with total := s.total + 1 }
  if resp = some cumpleStr then { s1 with cumple := s1.cumple + 1 }
  else if resp = some noCumpleStr then { s1 with noCumple := s1.noCumple + 1 }
  else { s1 with noAplica := s1.noAplica + 1 }

/-- The insertion-ordered dict `estadisticas["secciones"]`, modelled as an
association list: lines 254-268 insert a fresh zero entry when the section
key is absent and then update the entry in place. -/
def actualizarSecciones :
    List (String × SeccionStats) → String → Option String →
      List (String × SeccionStats)
  | [], sec, resp => [(sec, bumpSeccion SeccionStats.inicial resp)]
  | kv :: rest, sec, resp =>
    if kv.1 = sec then (kv.1, bumpSeccion kv.2 resp) :: rest
    else kv :: actualizarSecciones rest sec resp

/-- The loop state of lines 244-268: the two global accumulators
`preguntas_totales`, `cumplimientos_totales` and the per-section dict. -/
structure AccEstado where
  preguntasTotales : Nat
  cumplimientosTotales : Nat
  secciones : List (String × SeccionStats)
deriving DecidableEq, Repr

def AccEstado.inicial : AccEstado := ⟨0, 0, []⟩

/-- The body of the inner loop `for pregunta in formulario.preguntas`
(lines 248-268). -/
def procesarPregunta (st : AccEstado) (p : PreguntaVerificacion) : AccEstado :=
  { preguntasTotales := st.preguntasTotales + 1
    cumplimientosTotales :=
      if p.respuesta = some cumpleStr then st.cumplimientosTotales + 1
      else st.cumplimientosTotales
    secciones := actualizarSecciones st.secciones p.seccion p.respuesta }

/-- The inner loop over one formulario (line 248). -/
def procesarFormulario (st : AccEstado) (f : FormularioVerificacion) : AccEstado :=
  f.preguntas.foldl procesarPregunta st

/-- The outer loop `for formulario in formularios` (line 247): NOTE that it
walks the FULL list of formularios of the company, not only the latest. -/
def procesarFormularios (fs : List FormularioVerificacion) : AccEstado :=
  fs.foldl procesarFormulario AccEstado.inicial

/-- Processing a flat list of questions from the initial state (used to
relate the nested loop to the concatenated question history). -/
def procesarPreguntas (ps : List PreguntaVerificacion) : AccEstado :=
  ps.foldl procesarPregunta AccEstado.inicial

/-- Python `round(x, 2)` modelled over the rationals: round to the nearest
hundredth. -/
def round2 (q : ℚ) : ℚ := ((round (q * 100) : ℤ) : ℚ) / 100

/-- The `estadisticas` dict assembled at lines 237-273. -/
structure Estadisticas where
  totalVerificaciones : Nat
  ultimaVerificacion : Nat
  cumplimientoPromedio : ℚ
  secciones : List (String × SeccionStats)
deriving DecidableEq, Repr

/-- The only aggregation failure in the code: the 404
`"No hay formularios para esta empresa"` raised at line 234. -/
inductive ReporteError
  | noHayFormularios
deriving DecidableEq, Repr

/-- `max(f.fecha for f in formularios)` (line 239), evaluated only on a
non-empty list. -/
def ultimaFecha (fs : List FormularioVerificacion) : Nat :=
  fs.foldl (fun m f => max m f.fecha) 0

/-- The statistics portion of the endpoint `generar_reporte_empresa`
(lines 227-279): fail when the company has no formularios (line 233),
otherwise fold the FULL history of formularios into the counters and set
`cumplimiento_promedio` only when `preguntas_totales > 0` (lines 270-273). -/
def generarReporteEmpresa (fs : List FormularioVerificacion) :
    Except ReporteError Estadisticas :=
  if fs = [] then .error .noHayFormularios
  else
    let acc := procesarFormularios fs
    let prom : ℚ :=
      if 0 < acc.preguntasTotales then
        round2 ((acc.cumplimientosTotales : ℚ) / (acc.preguntasTotales : ℚ) * 100)
      else 0
    .ok
      { totalVerificaciones := fs.length
        ultimaVerificacion := ultimaFecha fs
        cumplimientoPromedio := prom
        secciones := acc.secciones }

/-! ## Classifier (`generate_pdf_report`, lines 1592-1604). -/

inductive Estado
  | excelente
  | aceptable
  | insuficiente
deriving DecidableEq, Repr

/-- Lines 1593-1604: `if cumplimiento >= 80 ... elif cumplimiento >= 50 ...
else ...`. -/
def clasificarEstado (cumplimiento : ℚ) : Estado :=
  if 80 ≤ cumplimiento then .excelente
  else if 50 ≤ cumplimiento then .aceptable
  else .insuficiente

/-! ## Section percentage (`generate_pdf_report` lines 1676-1677,
1720-1721, 1745-1746 and `reportes_page` lines 2118-2120, 2149-2150). -/

/-- `total_aplicable = datos.get("total", 0) - datos.get("no_aplica", 0)`,
a Python int subtraction. -/
def totalAplicable (s : SeccionStats) : ℤ := (s.total : ℤ) - (s.noAplica : ℤ)

/-- `porcentaje = (cumple / total_aplicable) * 100 if total_aplicable > 0
else 0`, as written in `generate_pdf_report`. -/
def porcentajeSeccion (s : SeccionStats) : ℚ :=
  if 0 < totalAplicable s then
    (s.cumple : ℚ) / (totalAplicable s : ℚ) * 100
  else 0

/-- The same guarded formula as written inline in `reportes_page`
(lines 2119-2120 and 2149-2150). -/
def porcentajeSeccionReportes (s : SeccionStats) : ℚ :=
  if 0 < totalAplicable s then
    (s.cumple : ℚ) / (totalAplicable s : ℚ) * 100
  else 0

/-! ## Logo slots of the PDF header (`generate_pdf_report`,
lines 1517-1544). -/

/-- An uploaded logo file; `decodable` abstracts whether the external
`PIL.Image.open / convert / save` pipeline succeeds on its bytes. -/
structure LogoArchivo where
  decodable : Bool
deriving DecidableEq, Repr

inductive BloqueEncabezado
  | imagen
  | textoFallback (texto : String)
deriving DecidableEq, Repr

/-- One logo slot of the header: the code is guarded by `if logo_sesaco:`
(resp. `if logo_empresa:`), so an absent upload draws nothing at all; inside
the guard, a decode failure falls into the `except` branch that writes the
fallback text (lines 1518-1530 and 1533-1544). -/
def renderLogoSlot (logo : Option LogoArchivo) (textoFallback : String) :
    List BloqueEncabezado :=
  match logo with
  | none => []
  | some l =>
    if l.decodable then [.imagen] else [.textoFallback textoFallback]

/-! ## Chart rasterization temp files (`generate_pdf_report`,
lines 1613-1652, 1672-1706, 1749-1775).  Each chart block follows the same
pattern: `try:` build the figure, create a `NamedTemporaryFile(delete=False)`,
`plt.savefig`, `pdf.image`, `os.unlink`; `except:` print and emit a textual
placeholder. -/

/-- Which external call of one chart block raises, if any. -/
inductive ChartFallo
  | ninguno
  | antesDeTemp
  | alGuardar
  | alInsertar
deriving DecidableEq, Repr

structure ChartResultado where
  placeholder : Bool
  temporalesRestantes : Nat
deriving DecidableEq, Repr

/-- Trace of one chart block.  An exception jumps straight to the `except`
handler, which only prints and writes the placeholder: `os.unlink` is NOT
in a `finally`, so it runs only on the success path. -/
def renderChartBloque (fallo : ChartFallo) : ChartResultado :=
  if fallo = .antesDeTemp then
    { placeholder := true, temporalesRestantes := 0 }
  else
    let temporales := 1
    if fallo = .alGuardar ∨ fallo = .alInsertar then
      { placeholder := true, temporalesRestantes := temporales }
    else
      { placeholder := false, temporalesRestantes := temporales - 1 }

/-! ## Spreadsheet export (`reportes_page`, lines 2018-2070). -/

/-- Character-list prefix test, used to express the xlsxwriter
`criteria: containing` text match. -/
def empiezaCon : List Char → List Char → Bool
  | [], _ => true
  | _ :: _, [] => false
  | p :: ps, c :: cs => p = c && empiezaCon ps cs

/-- Substring occurrence on character lists. -/
def esSubcadenaEn (pat : List Char) : List Char → Bool
  | [] => pat.isEmpty
  | c :: rest => empiezaCon pat (c :: rest) || esSubcadenaEn pat rest

/-- xlsxwriter conditional format `type: text, criteria: containing,
value: valor` applied to a cell: the cell holds `valor` as a substring.
A missing answer (`None`) renders an empty cell matching no rule. -/
def contiene (celda : Option String) (valor : String) : Bool :=
  match celda with
  | none => false
  | some s => esSubcadenaEn valor.toList s.toList

/-- `pregunta.get("seccion", "").replace("_", " ")` (line 2021). -/
def reemplazarGuionesBajos (s : String) : String :=
  String.mk (s.toList.map fun c => if c = '_' then ' ' else c)

/-- Python `str.title()`: the first alphabetic character of each run is
upper-cased and the following alphabetic characters are lower-cased. -/
def tituloPython (s : String) : String :=
  String.mk
    (s.toList.foldl
      (fun (acc : List Char × Bool) c =>
        let c2 :=
          if c.isAlpha then (if acc.2 then c.toLower else c.toUpper) else c
        (acc.1 ++ [c2], c.isAlpha))
      ([], false)).1

/-- One DataFrame row of the Excel export (lines 2020-2027). -/
structure FilaExcel where
  seccion : String
  categoria : String
  pregunta : String
  normativa : String
  cumplimiento : Option String
  observaciones : Option String
deriving DecidableEq, Repr

/-- The dict appended for one question (lines 2020-2027): `dict.get` with a
default still returns `None` when the stored value is `None`, so the
`Cumplimiento` and `Observaciones` cells keep the optional values. -/
def filaExcelDe (p : PreguntaVerificacion) : FilaExcel :=
  { seccion := tituloPython (reemplazarGuionesBajos p.seccion)
    categoria := p.categoria
    pregunta := p.pregunta
    normativa := p.normativa
    cumplimiento := p.respuesta
    observaciones := p.observaciones }

/-- One row per question of `ultimo_formulario.get("preguntas", [])`, in the
stored order (line 2019). -/
def filasExcel (preguntas : List PreguntaVerificacion) : List FilaExcel :=
  preguntas.map filaExcelDe

/-- The DataFrame column headers (lines 2021-2026); column E (index 4) is
`Cumplimiento`. -/
def columnasExcel : List String :=
  ["Sección", "Categoría", "Pregunta", "Normativa", "Cumplimiento",
   "Observaciones"]

inductive EstiloCelda
  | verde
  | rojo
  | gris
deriving DecidableEq, Repr

/-- The three conditional formats registered at lines 2045-2064, in order:
green for cells containing the `cumple` literal, red for `no cumple`, gray
for `no aplica`. -/
def reglasActivas (celda : Option String) : List EstiloCelda :=
  (if contiene celda cumpleStr then [EstiloCelda.verde] else []) ++
  (if contiene celda noCumpleStr then [EstiloCelda.rojo] else []) ++
  (if contiene celda noAplicaStr then [EstiloCelda.gris] else [])

/-- Styles of the Cumplimiento cell of the sheet row `filaHoja` (1-based,
row 1 being the header written by `to_excel`): the three rules apply only
to the range `E2:E1000`. -/
def estilosEnHoja (filaHoja : Nat) (celda : Option String) : List EstiloCelda :=
  if 2 ≤ filaHoja ∧ filaHoja ≤ 1000 then reglasActivas celda else []

/-- The n-th question row (1-based) sits at sheet row n + 1 because the
header occupies row 1. -/
def estilosDePreguntaFila (n : Nat) (celda : Option String) : List EstiloCelda :=
  estilosEnHoja (n + 1) celda

/-! ## Definitions modelled from the words of the spec, for comparison with
the code (refinement direction of the claims). -/

/-- Modelled from the spec: per-question statuses derived from the most
recent Response Set only (`formularios[-1]`, the last element). -/
def seccionesSoloUltimo (fs : List FormularioVerificacion) :
    List (String × SeccionStats) :=
  (procesarPreguntas ((fs.getLast?.map (·.preguntas)).getD [])).secciones

def totalesSecciones (l : List (String × SeccionStats)) : Nat :=
  (l.map fun kv => kv.2.total).sum

def cumpleSecciones (l : List (String × SeccionStats)) : Nat :=
  (l.map fun kv => kv.2.cumple).sum

def noAplicaSecciones (l : List (String × SeccionStats)) : Nat :=
  (l.map fun kv => kv.2.noAplica).sum

/-- Modelled from the spec: `overallRatio = 100 * totalCompliant /
totalApplicable when totalApplicable > 0, else 0`, with the applicable
count excluding the not-applicable items as in the section formula. -/
def ratioSegunAplicables (l : List (String × SeccionStats)) : ℚ :=
  if 0 < totalesSecciones l - noAplicaSecciones l then
    100 * (cumpleSecciones l : ℚ) /
      ((totalesSecciones l - noAplicaSecciones l : ℕ) : ℚ)
  else 0

/-- Modelled from the spec: an answered question is one whose status is one
of the three recorded radio options. -/
def contestada (p : PreguntaVerificacion) : Bool :=
  p.respuesta = some cumpleStr || p.respuesta = some noCumpleStr ||
    p.respuesta = some noAplicaStr

def contarContestadas (ps : List PreguntaVerificacion) : Nat :=
  (ps.filter contestada).length

/-! ## Concrete inputs used by counterexamples and witnesses. -/

def preguntaCumple : PreguntaVerificacion :=
  ⟨1, "s1", "cat", "p1", "norma", some cumpleStr, none⟩

def preguntaNoCumple : PreguntaVerificacion :=
  ⟨1, "s1", "cat", "p1", "norma", some noCumpleStr, none⟩

def preguntaNoAplica : PreguntaVerificacion :=
  ⟨2, "s1", "cat", "p2", "norma", some noAplicaStr, none⟩

def preguntaSinRespuesta : PreguntaVerificacion :=
  ⟨3, "s1", "cat", "p3", "norma", none, none⟩

def preguntaNoSeleccionada : PreguntaVerificacion :=
  ⟨4, "s1", "cat", "p4", "norma", some noSeleccionadoStr, none⟩

def formularioAntiguo : FormularioVerificacion :=
  ⟨"ruc1", "ced1", 1, [preguntaCumple]⟩

def formularioReciente : FormularioVerificacion :=
  ⟨"ruc1", "ced1", 2, [preguntaNoCumple]⟩

def formularioMixto : FormularioVerificacion :=
  ⟨"ruc1", "ced1", 1, [preguntaCumple, preguntaNoAplica]⟩

def formularioVacio : FormularioVerificacion :=
  ⟨"ruc1", "ced1", 5, []⟩

/-! ## Invariant predicates. -/

/-- The section counters invariant: the unconditional `total` increment is
matched by exactly one of the three classified increments. -/
def seccionInv (s : SeccionStats) : Prop :=
  s.total = s.cumple + s.noCumple + s.noAplica

/-- The loop invariant of lines 244-268: the global accumulators agree with
the per-section sums, and every section satisfies `seccionInv`. -/
def accInv (st : AccEstado) : Prop :=
  st.preguntasTotales = totalesSecciones st.secciones ∧
  st.cumplimientosTotales = cumpleSecciones st.secciones ∧
  st.cumplimientosTotales ≤ st.preguntasTotales ∧
  ∀ kv ∈ st.secciones, seccionInv kv.2

/-! ## Helper lemmas about one classification step. -/

theorem bumpSeccion_total (s : SeccionStats) (r : Option String) :
    (bumpSeccion s r).total = s.total + 1 := by
  unfold bumpSeccion; split <;> [skip; split] <;> rfl

theorem bumpSeccion_cumple (s : SeccionStats) (r : Option String) :
    (bumpSeccion s r).cumple
      = s.cumple + (if r = some cumpleStr then 1 else 0) := by
  unfold bumpSeccion
  split
  · simp_all
  · split <;> simp_all

theorem bumpSeccion_suma (s : SeccionStats) (r : Option String) :
    (bumpSeccion s r).cumple + (bumpSeccion s r).noCumple +
        (bumpSeccion s r).noAplica
      = s.cumple + s.noCumple + s.noAplica + 1 := by
  unfold bumpSeccion
  split
  · simp; omega
  · split <;> (simp; omega)

theorem bumpSeccion_noRespuesta (s : SeccionStats) (r : Option String)
    (h1 : r ≠ some cumpleStr) (h2 : r ≠ some noCumpleStr) :
    (bumpSeccion s r).noAplica = s.noAplica + 1 := by
  simp [bumpSeccion, h1, h2]

theorem bumpSeccion_inv {s : SeccionStats} (r : Option String)
    (h : seccionInv s) : seccionInv (bumpSeccion s r) := by
  unfold seccionInv at *
  rw [bumpSeccion_total, bumpSeccion_suma, h]

/-! ## Helper lemmas about the per-section dict update. -/

theorem actualizarSecciones_mem_inv
    (l : List (String × SeccionStats)) (sec : String) (r : Option String)
    (h : ∀ kv ∈ l, seccionInv kv.2) :
    ∀ kv ∈ actualizarSecciones l sec r, seccionInv kv.2 := by
  induction l with
  | nil =>
    intro kv hkv
    simp only [actualizarSecciones, List.mem_singleton] at hkv
    subst hkv
    exact bumpSeccion_inv r (by simp [seccionInv, SeccionStats.inicial])
  | cons hd tl ih =>
    intro kv hkv
    simp only [actualizarSecciones] at hkv
    by_cases hsec : hd.1 = sec
    · rw [if_pos hsec] at hkv
      rcases List.mem_cons.1 hkv with h1 | h1
      · subst h1; exact bumpSeccion_inv r (h hd (by simp))
      · exact h kv (List.mem_cons_of_mem _ h1)
    · rw [if_neg hsec] at hkv
      rcases List.mem_cons.1 hkv with h1 | h1
      · subst h1; exact h kv (by simp)
      · exact ih (fun x hx => h x (List.mem_cons_of_mem _ hx)) kv h1

theorem actualizarSecciones_totales
    (l : List (String × SeccionStats)) (sec : String) (r : Option String) :
    totalesSecciones (actualizarSecciones l sec r) = totalesSecciones l + 1 := by
  induction l with
  | nil =>
    simp [actualizarSecciones, totalesSecciones, bumpSeccion_total,
      SeccionStats.inicial]
  | cons hd tl ih =>
    simp only [actualizarSecciones]
    by_cases hsec : hd.1 = sec
    · rw [if_pos hsec]
      simp [totalesSecciones, bumpSeccion_total]; omega
    · rw [if_neg hsec]
      simp only [totalesSecciones, List.map_cons, List.sum_cons] at *
      omega

theorem actualizarSecciones_cumples
    (l : List (String × SeccionStats)) (sec : String) (r : Option String) :
    cumpleSecciones (actualizarSecciones l sec r)
      = cumpleSecciones l + (if r = some cumpleStr then 1 else 0) := by
  induction l with
  | nil =>
    simp [actualizarSecciones, cumpleSecciones, bumpSeccion_cumple,
      SeccionStats.inicial]
  | cons hd tl ih =>
    simp only [actualizarSecciones]
    by_cases hsec : hd.1 = sec
    · rw [if_pos hsec]
      simp [cumpleSecciones, bumpSeccion_cumple]; omega
    · rw [if_neg hsec]
      simp only [cumpleSecciones, List.map_cons, List.sum_cons] at *
      omega

/-! ## The loop invariant. -/

theorem accInv_inicial : accInv AccEstado.inicial := by
  refine ⟨rfl, rfl, le_refl _, ?_⟩
  intro kv hkv
  simp [AccEstado.inicial] at hkv

theorem procesarPregunta_inv {st : AccEstado} (p : PreguntaVerificacion)
    (h : accInv st) : accInv (procesarPregunta st p) := by
  obtain ⟨h1, h2, h3, h4⟩ := h
  refine ⟨?_, ?_, ?_, ?_⟩
  · simp [procesarPregunta, actualizarSecciones_totales, h1]
  · simp [procesarPregunta, actualizarSecciones_cumples, h2]
    split <;> omega
  · simp [procesarPregunta]
    split <;> omega
  · exact actualizarSecciones_mem_inv _ _ _ h4

theorem foldl_procesarPregunta_inv (ps : List PreguntaVerificacion) :
    ∀ st : AccEstado, accInv st → accInv (ps.foldl procesarPregunta st) := by
  induction ps with
  | nil => intro st h; exact h
  | cons p rest ih =>
    intro st h
    exact ih _ (procesarPregunta_inv p h)

theorem procesarFormularios_inv (fs : List FormularioVerificacion) :
    accInv (procesarFormularios fs) := by
  have main : ∀ st : AccEstado, accInv st →
      accInv (fs.foldl procesarFormulario st) := by
    induction fs with
    | nil => intro st h; exact h
    | cons f rest ih =>
      intro st h
      exact ih _ (foldl_procesarPregunta_inv f.preguntas st h)
  exact main _ accInv_inicial

/-- The nested loop over formularios is the flat loop over the concatenated
question history. -/
theorem procesarFormularios_eq_flatten (fs : List FormularioVerificacion) :
    procesarFormularios fs
      = procesarPreguntas ((fs.map (·.preguntas)).flatten) := by
  unfold procesarFormularios procesarPreguntas
  generalize AccEstado.inicial = st
  induction fs generalizing st with
  | nil => rfl
  | cons f rest ih =>
    simp only [List.foldl_cons, List.map_cons, List.flatten_cons,
      List.foldl_append]
    exact ih _

/-! ## Bounds for the rounded percentage. -/

theorem round2_nonneg {q : ℚ} (h : 0 ≤ q) : 0 ≤ round2 q := by
  unfold round2
  apply div_nonneg _ (by norm_num)
  have h2 : (0 : ℤ) ≤ round (q * 100) := by
    rw [round_eq, Int.le_floor]
    push_cast
    linarith
  exact_mod_cast h2

theorem round2_le_100 {q : ℚ} (h : q ≤ 100) : round2 q ≤ 100 := by
  unfold round2
  rw [div_le_iff₀ (by norm_num : (0:ℚ) < 100)]
  have h2 : round (q * 100) ≤ 10000 := by
    rw [round_eq]
    have hle : q * 100 + 1/2 ≤ 10000 + 1/2 := by linarith
    calc ⌊q * 100 + 1/2⌋ ≤ ⌊(10000 : ℚ) + 1/2⌋ := Int.floor_mono hle
    _ = 10000 := by norm_num [Int.floor_eq_iff]
  calc ((round (q * 100) : ℤ) : ℚ) ≤ (10000 : ℚ) := by exact_mod_cast h2
  _ = 100 * 100 := by norm_num

theorem ratio_bounds {c t : ℕ} (hct : c ≤ t) (ht : 0 < t) :
    0 ≤ (c : ℚ) / (t : ℚ) * 100 ∧ (c : ℚ) / (t : ℚ) * 100 ≤ 100 := by
  have ht2 : (0 : ℚ) < t := by exact_mod_cast ht
  constructor
  · positivity
  · rw [mul_comm, ← mul_div_assoc, div_le_iff₀ ht2]
    have hc : (c : ℚ) ≤ (t : ℚ) := by exact_mod_cast hct
    nlinarith

/-- Shape of every successful result of `generarReporteEmpresa`. -/
theorem generarReporte_ok_eq {fs : List FormularioVerificacion}
    {est : Estadisticas} (h : generarReporteEmpresa fs = .ok est) :
    fs ≠ [] ∧
    est = { totalVerificaciones := fs.length
            ultimaVerificacion := ultimaFecha fs
            cumplimientoPromedio :=
              if 0 < (procesarFormularios fs).preguntasTotales then
                round2 (((procesarFormularios fs).cumplimientosTotales : ℚ) /
                  ((procesarFormularios fs).preguntasTotales : ℚ) * 100)
              else 0
            secciones := (procesarFormularios fs).secciones } := by
  by_cases hfs : fs = []
  · subst hfs; simp [generarReporteEmpresa] at h
  · unfold generarReporteEmpresa at h
    rw [if_neg hfs] at h
    simp only [Except.ok.injEq] at h
    exact ⟨hfs, h.symm⟩

/-! ## Claim C1. -/

/-- Claim C1 (amended): for every non-empty history of formularios of a
company, the aggregation derives the per-question statuses, hence all
per-section counts, from the FULL history (the concatenation of the
question lists of every formulario), not from the most recent Response Set
only; `totalVerificaciones` and `ultimaVerificacion` are also derived from
the full history. -/
theorem c1_estadisticas_de_historial_completo
    (fs : List FormularioVerificacion) (est : Estadisticas)
    (h : generarReporteEmpresa fs = .ok est) :
    est.totalVerificaciones = fs.length ∧
    est.ultimaVerificacion = ultimaFecha fs ∧
    est.secciones
      = (procesarPreguntas ((fs.map (·.preguntas)).flatten)).secciones := by
  obtain ⟨-, rfl⟩ := generarReporte_ok_eq h
  refine ⟨rfl, rfl, ?_⟩
  simp [procesarFormularios_eq_flatten]

/-- Claim C1, counterexample: with an older formulario answering the only
question Cumple and a newer one answering it No cumple, the aggregated
section counts are total 2, cumple 1, no cumple 1 — the counts of the full
history — and differ from the counts of the most recent Response Set only
(total 1, no cumple 1), refuting the claim as stated. -/
theorem c1_counterexample :
    generarReporteEmpresa [formularioAntiguo, formularioReciente]
      = .ok ⟨2, 2, 50, [("s1", ⟨2, 1, 1, 0⟩)]⟩ ∧
    seccionesSoloUltimo [formularioAntiguo, formularioReciente]
      = [("s1", ⟨1, 0, 1, 0⟩)] ∧
    (⟨2, 2, 50, [("s1", ⟨2, 1, 1, 0⟩)]⟩ : Estadisticas).secciones
      ≠ seccionesSoloUltimo [formularioAntiguo, formularioReciente] := by
  refine ⟨?_, by decide, by decide⟩
  simp [generarReporteEmpresa, procesarFormularios, procesarFormulario,
    procesarPregunta, actualizarSecciones, bumpSeccion, AccEstado.inicial,
    SeccionStats.inicial, formularioAntiguo, formularioReciente,
    preguntaCumple, preguntaNoCumple, cumpleStr, noCumpleStr, ultimaFecha]
  norm_num [round2, round_eq]

/-- Claim C1, witness of the amended theorem at a concrete two-formulario
history. -/
theorem c1_witness :
    (⟨2, 2, 50, [("s1", ⟨2, 1, 1, 0⟩)]⟩ : Estadisticas).totalVerificaciones
        = [formularioAntiguo, formularioReciente].length ∧
    (⟨2, 2, 50, [("s1", ⟨2, 1, 1, 0⟩)]⟩ : Estadisticas).ultimaVerificacion
        = ultimaFecha [formularioAntiguo, formularioReciente] ∧
    (⟨2, 2, 50, [("s1", ⟨2, 1, 1, 0⟩)]⟩ : Estadisticas).secciones
        = (procesarPreguntas
            (([formularioAntiguo, formularioReciente].map (·.preguntas)).flatten)).secciones :=
  c1_estadisticas_de_historial_completo _ _ (by
    simp [generarReporteEmpresa, procesarFormularios, procesarFormulario,
      procesarPregunta, actualizarSecciones, bumpSeccion, AccEstado.inicial,
      SeccionStats.inicial, formularioAntiguo, formularioReciente,
      preguntaCumple, preguntaNoCumple, cumpleStr, noCumpleStr, ultimaFecha]
    norm_num [round2, round_eq])

/-! ## Claim C2. -/

/-- Claim C2 (amended): every answer is classified into exactly one of the
THREE statuses Cumple, No cumple, No aplica — a missing answer or one whose
status is not one of the first two literals (including the submit default
No seleccionado) is counted as No aplica, not as a separate Unanswered
bucket — and consequently every section satisfies
total = cumple + noCumple + noAplica (so the three counts never exceed the
total). -/
theorem c2_clasificacion_en_tres_estados :
    (∀ (s : SeccionStats) (r : Option String),
       (bumpSeccion s r).cumple + (bumpSeccion s r).noCumple +
           (bumpSeccion s r).noAplica
         = s.cumple + s.noCumple + s.noAplica + 1) ∧
    (∀ (s : SeccionStats) (r : Option String),
       r ≠ some cumpleStr → r ≠ some noCumpleStr →
         (bumpSeccion s r).noAplica = s.noAplica + 1) ∧
    (∀ (fs : List FormularioVerificacion) (kv : String × SeccionStats),
       kv ∈ (procesarFormularios fs).secciones →
         kv.2.total = kv.2.cumple + kv.2.noCumple + kv.2.noAplica ∧
         kv.2.cumple + kv.2.noCumple + kv.2.noAplica ≤ kv.2.total) := by
  refine ⟨bumpSeccion_suma, bumpSeccion_noRespuesta, ?_⟩
  intro fs kv hkv
  have h := (procesarFormularios_inv fs).2.2.2 kv hkv
  unfold seccionInv at h
  omega

/-- Claim C2, counterexample: a question with a missing answer, and one
with the submit default No seleccionado, are both counted in the
`no_aplica` bucket (section counts total 1, noAplica 1), not in a distinct
Unanswered status as the claim states. -/
theorem c2_counterexample :
    preguntaSinRespuesta.respuesta = none ∧
    (procesarPreguntas [preguntaSinRespuesta]).secciones
      = [("s1", ⟨1, 0, 0, 1⟩)] ∧
    preguntaNoSeleccionada.respuesta = some noSeleccionadoStr ∧
    (procesarPreguntas [preguntaNoSeleccionada]).secciones
      = [("s1", ⟨1, 0, 0, 1⟩)] := by
  exact ⟨rfl, by decide, rfl, by decide⟩

/-- Claim C2, witness of the amended theorem at a concrete step and a
concrete aggregated section. -/
theorem c2_witness :
    (bumpSeccion ⟨0, 0, 0, 0⟩ none).noAplica = 0 + 1 ∧
    (("s1", (⟨1, 1, 0, 0⟩ : SeccionStats)).2.total
        = ("s1", (⟨1, 1, 0, 0⟩ : SeccionStats)).2.cumple +
            ("s1", (⟨1, 1, 0, 0⟩ : SeccionStats)).2.noCumple +
            ("s1", (⟨1, 1, 0, 0⟩ : SeccionStats)).2.noAplica ∧
      ("s1", (⟨1, 1, 0, 0⟩ : SeccionStats)).2.cumple +
          ("s1", (⟨1, 1, 0, 0⟩ : SeccionStats)).2.noCumple +
          ("s1", (⟨1, 1, 0, 0⟩ : SeccionStats)).2.noAplica
        ≤ ("s1", (⟨1, 1, 0, 0⟩ : SeccionStats)).2.total) :=
  ⟨c2_clasificacion_en_tres_estados.2.1 ⟨0, 0, 0, 0⟩ none (by decide)
      (by decide),
   c2_clasificacion_en_tres_estados.2.2 [formularioAntiguo]
      ("s1", ⟨1, 1, 0, 0⟩) (by decide)⟩

/-! ## Claim C3. -/

/-- Claim C3 (amended): the overall ratio equals the sum of `cumple` over
all sections divided by the sum of `total` over all sections, times 100 and
rounded to 2 decimals — 0 when there are zero total items — and always lies
in [0, 100].  The denominator is the full `total` sum (which includes the
not-applicable items), NOT the applicable count. -/
theorem c3_promedio_redondeado_en_rango
    (fs : List FormularioVerificacion) (est : Estadisticas)
    (h : generarReporteEmpresa fs = .ok est) :
    (est.cumplimientoPromedio =
       if 0 < totalesSecciones est.secciones then
         round2 ((cumpleSecciones est.secciones : ℚ) /
           (totalesSecciones est.secciones : ℚ) * 100)
       else 0) ∧
    0 ≤ est.cumplimientoPromedio ∧ est.cumplimientoPromedio ≤ 100 := by
  obtain ⟨-, rfl⟩ := generarReporte_ok_eq h
  obtain ⟨h1, h2, h3, -⟩ := procesarFormularios_inv fs
  constructor
  · simp only [← h1, ← h2]
  · by_cases hpos : 0 < (procesarFormularios fs).preguntasTotales
    · simp only [if_pos hpos]
      obtain ⟨hb1, hb2⟩ := ratio_bounds h3 hpos
      exact ⟨round2_nonneg hb1, round2_le_100 hb2⟩
    · simp only [if_neg hpos]
      norm_num

/-- Claim C3, counterexample: one formulario with one Cumple and one
No aplica answer gives overall ratio 50 (denominator 2, the full total),
while 100 * totalCompliant / totalApplicable with totalApplicable = 1 > 0
is 100: the code ratio does not equal the applicable-denominator formula of
the claim. -/
theorem c3_counterexample :
    generarReporteEmpresa [formularioMixto]
      = .ok ⟨1, 1, 50, [("s1", ⟨2, 1, 0, 1⟩)]⟩ ∧
    0 < totalesSecciones [("s1", ⟨2, 1, 0, 1⟩)]
        - noAplicaSecciones [("s1", ⟨2, 1, 0, 1⟩)] ∧
    ratioSegunAplicables [("s1", ⟨2, 1, 0, 1⟩)] = 100 ∧
    (⟨1, 1, 50, [("s1", ⟨2, 1, 0, 1⟩)]⟩ : Estadisticas).cumplimientoPromedio
      ≠ ratioSegunAplicables [("s1", ⟨2, 1, 0, 1⟩)] := by
  refine ⟨?_, by decide, ?_, ?_⟩
  · simp [generarReporteEmpresa, procesarFormularios, procesarFormulario,
      procesarPregunta, actualizarSecciones, bumpSeccion, AccEstado.inicial,
      SeccionStats.inicial, formularioMixto, preguntaCumple, preguntaNoAplica,
      cumpleStr, noCumpleStr, noAplicaStr, ultimaFecha]
    norm_num [round2, round_eq]
  · norm_num [ratioSegunAplicables, totalesSecciones, cumpleSecciones,
      noAplicaSecciones]
  · norm_num [ratioSegunAplicables, totalesSecciones, cumpleSecciones,
      noAplicaSecciones]

/-- Claim C3, witness of the amended theorem at the mixed one-formulario
history. -/
theorem c3_witness :
    ((⟨1, 1, 50, [("s1", ⟨2, 1, 0, 1⟩)]⟩ : Estadisticas).cumplimientoPromedio =
       if 0 < totalesSecciones
           (⟨1, 1, 50, [("s1", ⟨2, 1, 0, 1⟩)]⟩ : Estadisticas).secciones then
         round2 ((cumpleSecciones
             (⟨1, 1, 50, [("s1", ⟨2, 1, 0, 1⟩)]⟩ : Estadisticas).secciones : ℚ) /
           (totalesSecciones
             (⟨1, 1, 50, [("s1", ⟨2, 1, 0, 1⟩)]⟩ : Estadisticas).secciones : ℚ)
             * 100)
       else 0) ∧
    0 ≤ (⟨1, 1, 50, [("s1", ⟨2, 1, 0, 1⟩)]⟩ : Estadisticas).cumplimientoPromedio ∧
    (⟨1, 1, 50, [("s1", ⟨2, 1, 0, 1⟩)]⟩ : Estadisticas).cumplimientoPromedio ≤ 100 :=
  c3_promedio_redondeado_en_rango [formularioMixto] _ (by
    simp [generarReporteEmpresa, procesarFormularios, procesarFormulario,
      procesarPregunta, actualizarSecciones, bumpSeccion, AccEstado.inicial,
      SeccionStats.inicial, formularioMixto, preguntaCumple, preguntaNoAplica,
      cumpleStr, noCumpleStr, noAplicaStr, ultimaFecha]
    norm_num [round2, round_eq])

/-! ## Claim C4. -/

/-- Claim C4 (confirmed): the classifier is a total function on ratios
mapping every ratio to exactly one tier, with inclusive lower bounds at
exactly 50 and 80: 80 ≤ r gives Excelente, 50 ≤ r < 80 gives Aceptable,
r < 50 gives Insuficiente; in particular 80 maps to Excelente, 79.999 to
Aceptable, 50 to Aceptable and 49.999 to Insuficiente. -/
theorem c4_clasificador_total_umbrales :
    (∀ r : ℚ,
      (clasificarEstado r = .excelente ↔ 80 ≤ r) ∧
      (clasificarEstado r = .aceptable ↔ 50 ≤ r ∧ r < 80) ∧
      (clasificarEstado r = .insuficiente ↔ r < 50)) ∧
    clasificarEstado 80 = .excelente ∧
    clasificarEstado ((79999 : ℚ) / 1000) = .aceptable ∧
    clasificarEstado 50 = .aceptable ∧
    clasificarEstado ((49999 : ℚ) / 1000) = .insuficiente := by
  refine ⟨?_, by norm_num [clasificarEstado], by norm_num [clasificarEstado],
    by norm_num [clasificarEstado], by norm_num [clasificarEstado]⟩
  intro r
  unfold clasificarEstado
  split_ifs with h80 h50
  · exact ⟨⟨fun _ => h80, fun _ => rfl⟩,
      ⟨fun h => absurd h (by decide), fun hr => absurd hr.2 (by linarith)⟩,
      ⟨fun h => absurd h (by decide), fun hr => absurd hr (by linarith)⟩⟩
  · exact ⟨⟨fun h => absurd h (by decide), fun hr => absurd hr h80⟩,
      ⟨fun _ => ⟨h50, not_le.mp h80⟩, fun _ => rfl⟩,
      ⟨fun h => absurd h (by decide), fun hr => absurd hr (by linarith)⟩⟩
  · exact ⟨⟨fun h => absurd h (by decide), fun hr => absurd hr h80⟩,
      ⟨fun h => absurd h (by decide), fun hr => absurd hr.1 h50⟩,
      ⟨fun _ => not_le.mp h50, fun _ => rfl⟩⟩

/-! ## Claim C5. -/

/-- Claim C5 (confirmed): in the bar chart, the statistics table, the
per-section detail of the PDF and the two inline sites of the reports page,
the section percentage is cumple / (total - noAplica) * 100, defined as 0
when the denominator total - noAplica is 0, so the division is guarded and
total; on every section produced by the aggregation the denominator is
non-negative. -/
theorem c5_porcentaje_guardado :
    (∀ s : SeccionStats, porcentajeSeccionReportes s = porcentajeSeccion s) ∧
    (∀ (fs : List FormularioVerificacion) (kv : String × SeccionStats),
       kv ∈ (procesarFormularios fs).secciones → kv.2.noAplica ≤ kv.2.total) ∧
    (∀ s : SeccionStats,
       (totalAplicable s = 0 → porcentajeSeccion s = 0) ∧
       (0 < totalAplicable s →
          porcentajeSeccion s
            = (s.cumple : ℚ) / ((s.total : ℚ) - (s.noAplica : ℚ)) * 100)) := by
  refine ⟨fun s => rfl, ?_, ?_⟩
  · intro fs kv hkv
    have h := (procesarFormularios_inv fs).2.2.2 kv hkv
    unfold seccionInv at h
    omega
  · intro s
    constructor
    · intro h0
      unfold porcentajeSeccion
      rw [if_neg]
      omega
    · intro hpos
      unfold porcentajeSeccion
      rw [if_pos hpos]
      have hcast : (totalAplicable s : ℚ) = (s.total : ℚ) - (s.noAplica : ℚ) := by
        unfold totalAplicable
        push_cast
        ring
      rw [hcast]

/-- Claim C5, witness: the guarded formula at a fully not-applicable
section (denominator 0, percentage 0), at a mixed section, and the
denominator bound on a concrete aggregated section. -/
theorem c5_witness :
    porcentajeSeccion ⟨2, 1, 0, 2⟩ = 0 ∧
    porcentajeSeccion ⟨3, 1, 1, 1⟩ = 50 ∧
    ("s1", (⟨1, 1, 0, 0⟩ : SeccionStats)).2.noAplica
      ≤ ("s1", (⟨1, 1, 0, 0⟩ : SeccionStats)).2.total := by
  refine ⟨(c5_porcentaje_guardado.2.2 ⟨2, 1, 0, 2⟩).1 (by decide), ?_, ?_⟩
  · have h := (c5_porcentaje_guardado.2.2 ⟨3, 1, 1, 1⟩).2 (by decide)
    rw [h]
    norm_num
  · exact c5_porcentaje_guardado.2.1 [formularioAntiguo] ("s1", ⟨1, 1, 0, 0⟩)
      (by decide)

/-! ## Claim C6. -/

/-- Claim C6 (amended): the aggregation fails — with the single typed
failure noHayFormularios, the 404 of line 234 — if and only if the company
has no formularios at all; in that case no statistics value is produced.
There is NO empty-catalog failure: a history whose formularios contain zero
questions succeeds with zero counts and ratio 0. -/
theorem c6_fallo_solo_sin_formularios (fs : List FormularioVerificacion) :
    (generarReporteEmpresa fs = .error .noHayFormularios ↔ fs = []) ∧
    ((∃ est, generarReporteEmpresa fs = .ok est) ↔ fs ≠ []) := by
  by_cases hfs : fs = []
  · subst hfs
    constructor
    · simp [generarReporteEmpresa]
    · simp [generarReporteEmpresa]
  · unfold generarReporteEmpresa
    rw [if_neg hfs]
    constructor
    · simp [hfs]
    · simp [hfs]

/-- Claim C6, counterexample: a formulario with an empty question list —
the zero-question Catalog scenario — does NOT fail with any EmptyCatalog
error: the aggregation succeeds and returns zero statistics with ratio 0. -/
theorem c6_counterexample :
    formularioVacio.preguntas = [] ∧
    generarReporteEmpresa [formularioVacio] = .ok ⟨1, 5, 0, []⟩ := by
  constructor
  · rfl
  · simp [generarReporteEmpresa, procesarFormularios, procesarFormulario,
      procesarPregunta, AccEstado.inicial, formularioVacio, ultimaFecha]

/-! ## Claim C7. -/

/-- Claim C7 (amended): only the undecodable-image case yields the textual
fallback block in the logo slot; an ABSENT logo draws nothing at all in
that slot (the whole slot is guarded by `if logo:`), and in neither case
does an error leave the slot — the function is total and never raises. -/
theorem c7_logo_fallback (logo : Option LogoArchivo) (txt : String) :
    (logo = some ⟨false⟩ → renderLogoSlot logo txt = [.textoFallback txt]) ∧
    (logo = none → renderLogoSlot logo txt = []) ∧
    (logo = some ⟨true⟩ → renderLogoSlot logo txt = [.imagen]) := by
  refine ⟨?_, ?_, ?_⟩ <;> (intro h; subst h; rfl)

/-- Claim C7, counterexample: when the logo file is absent the rendered
header slot is empty — no textual fallback block is substituted, contrary
to the claim that the absent-image case also yields the placeholder. -/
theorem c7_counterexample : renderLogoSlot none "SESACO" = [] := rfl

/-- Claim C7, witness: an undecodable logo yields exactly the textual
fallback block. -/
theorem c7_witness :
    renderLogoSlot (some ⟨false⟩) "SESACO"
      = [BloqueEncabezado.textoFallback "SESACO"] :=
  (c7_logo_fallback (some ⟨false⟩) "SESACO").1 rfl

/-! ## Claim C8. -/

/-- Claim C8 (amended): the spreadsheet export produces exactly one row per
question of the latest Response Set — answered or NOT — in the stored
order, with the six columns Seccion, Categoria, Pregunta, Normativa,
Cumplimiento, Observaciones; each of the three literal status values fires
exactly its own conditional-style rule (Cumple green, No cumple red,
No aplica gray), while a row with any other status value fires none. -/
theorem c8_filas_y_estilos (ps : List PreguntaVerificacion) :
    (filasExcel ps).length = ps.length ∧
    (∀ p ∈ ps,
       filaExcelDe p ∈ filasExcel ps ∧
       (filaExcelDe p).cumplimiento = p.respuesta ∧
       (filaExcelDe p).observaciones = p.observaciones ∧
       (filaExcelDe p).categoria = p.categoria ∧
       (filaExcelDe p).pregunta = p.pregunta ∧
       (filaExcelDe p).normativa = p.normativa) ∧
    columnasExcel.length = 6 ∧
    reglasActivas (some cumpleStr) = [.verde] ∧
    reglasActivas (some noCumpleStr) = [.rojo] ∧
    reglasActivas (some noAplicaStr) = [.gris] := by
  refine ⟨by simp [filasExcel], ?_, rfl, by decide, by decide, by decide⟩
  intro p hp
  exact ⟨by simp [filasExcel]; exact ⟨p, hp, rfl⟩, rfl, rfl, rfl, rfl, rfl⟩

/-- Claim C8, counterexample: an unanswered question (submit default
No seleccionado) still produces a spreadsheet row — one row though zero
questions are answered — and no conditional-style rule fires on that row,
contrary to one row per ANSWERED question with exactly one rule per row. -/
theorem c8_counterexample :
    (filasExcel [preguntaNoSeleccionada]).length = 1 ∧
    contarContestadas [preguntaNoSeleccionada] = 0 ∧
    reglasActivas (filaExcelDe preguntaNoSeleccionada).cumplimiento = [] := by
  refine ⟨rfl, rfl, by decide⟩

/-- Claim C8, witness: the amended row and style facts at a one-question
response set. -/
theorem c8_witness :
    filaExcelDe preguntaCumple ∈ filasExcel [preguntaCumple] ∧
    (filaExcelDe preguntaCumple).cumplimiento = preguntaCumple.respuesta ∧
    (filaExcelDe preguntaCumple).observaciones
        = preguntaCumple.observaciones ∧
    (filaExcelDe preguntaCumple).categoria = preguntaCumple.categoria ∧
    (filaExcelDe preguntaCumple).pregunta = preguntaCumple.pregunta ∧
    (filaExcelDe preguntaCumple).normativa = preguntaCumple.normativa :=
  (c8_filas_y_estilos [preguntaCumple]).2.1 preguntaCumple (by simp)

/-! ## Claim C9. -/

/-- Claim C9 (amended): the chart temp file is deleted before return only
on the success path (the `os.unlink` after embedding); on a failure raised
before the temp file exists nothing is left behind, but on a failure at
`plt.savefig` or at `pdf.image` — the paths where the textual placeholder
is substituted — the already-created temp file is NOT deleted, because the
unlink is not in a `finally`. -/
theorem c9_temporales (fallo : ChartFallo) :
    (fallo = .ninguno → renderChartBloque fallo = ⟨false, 0⟩) ∧
    (fallo = .antesDeTemp → renderChartBloque fallo = ⟨true, 0⟩) ∧
    (fallo = .alGuardar ∨ fallo = .alInsertar →
       (renderChartBloque fallo).placeholder = true ∧
       (renderChartBloque fallo).temporalesRestantes = 1) := by
  refine ⟨?_, ?_, ?_⟩
  · intro h; subst h; rfl
  · intro h; subst h; rfl
  · rintro (h | h) <;> (subst h; exact ⟨rfl, rfl⟩)

/-- Claim C9, counterexample: when chart embedding (`pdf.image`) fails, the
placeholder is substituted but one temporary file created for the chart is
still on disk when the function returns — it is not deleted on this failure
path. -/
theorem c9_counterexample :
    renderChartBloque .alInsertar = ⟨true, 1⟩ ∧
    (renderChartBloque .alInsertar).temporalesRestantes ≠ 0 := by
  exact ⟨rfl, by decide⟩

/-- Claim C9, witness: on the success path the temp file is created and
deleted before return. -/
theorem c9_witness : renderChartBloque .ninguno = ⟨false, 0⟩ :=
  (c9_temporales .ninguno).1 rfl

/-! ## Claim C10. -/

/-- Claim C10 (confirmed): the three conditional-style rules are registered
for the range E2:E1000 only — column E is the Cumplimiento (Status) column,
sheet row 1 is the header, so exactly question rows 1 to 999 are covered
and every question row past the 999th carries no style; within the range a
Status cell holding the submit default No seleccionado, or an empty cell
from a missing answer, matches no rule and is left unstyled, while each of
the three literal statuses receives exactly its own style. -/
theorem c10_rango_condicional (n : Nat) (celda : Option String) :
    columnasExcel[4]? = some "Cumplimiento" ∧
    (1000 ≤ n → estilosDePreguntaFila n celda = []) ∧
    (celda = some noSeleccionadoStr → estilosDePreguntaFila n celda = []) ∧
    (celda = none → estilosDePreguntaFila n celda = []) ∧
    (1 ≤ n → n ≤ 999 →
       estilosDePreguntaFila n (some cumpleStr) = [.verde] ∧
       estilosDePreguntaFila n (some noCumpleStr) = [.rojo] ∧
       estilosDePreguntaFila n (some noAplicaStr) = [.gris]) := by
  refine ⟨rfl, ?_, ?_, ?_, ?_⟩
  · intro h
    unfold estilosDePreguntaFila estilosEnHoja
    rw [if_neg]
    omega
  · intro h
    subst h
    unfold estilosDePreguntaFila estilosEnHoja
    split
    · decide
    · rfl
  · intro h
    subst h
    unfold estilosDePreguntaFila estilosEnHoja
    split
    · rfl
    · rfl
  · intro h1 h2
    refine ⟨?_, ?_, ?_⟩ <;>
      · unfold estilosDePreguntaFila estilosEnHoja
        rw [if_pos (by omega : 2 ≤ n + 1 ∧ n + 1 ≤ 1000)]
        decide

/-- Claim C10, witness: row 1000 is unstyled even for a literal Cumple
status; a No seleccionado cell and an empty cell inside the range are
unstyled; row 3 inside the range gets exactly the three per-literal
styles. -/
theorem c10_witness :
    estilosDePreguntaFila 1000 (some cumpleStr) = [] ∧
    estilosDePreguntaFila 5 (some noSeleccionadoStr) = [] ∧
    estilosDePreguntaFila 5 none = [] ∧
    estilosDePreguntaFila 3 (some cumpleStr) = [.verde] ∧
    estilosDePreguntaFila 3 (some noCumpleStr) = [.rojo] ∧
    estilosDePreguntaFila 3 (some noAplicaStr) = [.gris] :=
  ⟨(c10_rango_condicional 1000 (some cumpleStr)).2.1 (by omega),
   (c10_rango_condicional 5 (some noSeleccionadoStr)).2.2.1 rfl,
   (c10_rango_condicional 5 none).2.2.2.1 rfl,
   ((c10_rango_condicional 3 none).2.2.2.2 (by omega) (by omega)).1,
   ((c10_rango_condicional 3 none).2.2.2.2 (by omega) (by omega)).2.1,
   ((c10_rango_condicional 3 none).2.2.2.2 (by omega) (by omega)).2.2⟩

end Sesaco
